import Mathlib

/-!
Verification of `src/nodes/navigate_to_aruco.py` (the navigate-to-aruco
approach controller of the stretch_teleop_interface repository).

The development is a shallow embedding of the controller:

* geometry values (`Vec3`, `Quat`, `Transform`) are records of real numbers,
  mirroring `geometry_msgs` messages;
* the external `tf.transformations` helpers `euler_from_quaternion`
  (of which the code only uses the yaw component, index 2) and
  `quaternion_from_euler 0 0 angle` are library code outside the repository,
  so they are carried as abstract parameters `eY : Quat → ℝ` (yaw extraction)
  and `qY : ℝ → Quat` (re-encoding of a yaw with zero roll and pitch);
* the Python in-place mutation performed by `average_transforms` on
  `transforms[0]` (via the alias `trans = transforms[0]`) is made explicit:
  the embedded function returns both the averaged transform and the final
  contents of the input list after the call;
* the stateful action-server methods (`execute_callback`,
  `navigate_to_marker`, `move_base_aruco_callback`, `cancel_goals`,
  `preempt_callback`) become explicit state-passing functions over a state
  `St` plus an environment `Env` supplying the behaviour of the external
  collaborators (head-scan action, move-base action, tf lookups, preempt
  requests).  Every externally observable action (feedback publication,
  terminal result calls, cancel-all requests, collaborator waits, preempt
  checks) is recorded as an `Event` in an append-only trace;
* a Python exception escaping `execute_callback` (an unguarded
  `lookup_transform` at lines 86-87 of the source) is modelled by the
  run-outcome `RunEnd.uncaught`; the bounded mutual recursion between
  `navigate_to_marker` and `move_base_aruco_callback` is run on fuel, with
  `RunEnd.fuelOut` marking exhaustion (proved unreachable from a request
  entry with `max_tries = 3`).

The actionlib protocol delivers exactly one terminal status per goal: the
first of `set_aborted` / `set_succeeded` / `set_preempted` wins and later
calls are rejected by the action server.  The terminal status of a request
is therefore read off a trace with `firstTerminal`.
-/

noncomputable section

namespace StretchNav

/-- A `geometry_msgs` 3-vector. -/
structure Vec3 where
  x : ℝ
  y : ℝ
  z : ℝ

/-- A `geometry_msgs` quaternion (not constrained to be unit; the code never
normalises). -/
structure Quat where
  x : ℝ
  y : ℝ
  z : ℝ
  w : ℝ

/-- A `geometry_msgs` transform: translation plus rotation. -/
structure Transform where
  translation : Vec3
  rotation : Quat

/-- Severity class of a feedback message (`alert_type` in the source). -/
inductive Alert
  | info
  | error
  | success
deriving DecidableEq

/-- `self.feedback.state` strings of the source, verbatim. -/
def scanningMsg : String := "Scanning for marker..."

/-- Feedback published when the marker is not found by a head scan. -/
def notFoundMsg : String :=
  "Could not find Aruco Marker. Stretch may be too far away, try moving it closer to the marker."

/-- Feedback published at the start of a navigation cycle. -/
def navigatingMsg : String := "Navigating to marker..."

/-- Feedback published on the abort paths of `navigate_to_marker` and
`move_base_aruco_callback` (the "navigation failed" reason). -/
def navFailedMsg : String := "Navigation failed, please try again."

/-- Feedback published together with `set_succeeded`. -/
def succeededMsg : String := "Navigation succeeded!"

/-- Feedback published by `preempt_callback`. -/
def cancelledMsg : String := "Aruco navigation cancelled!"

/-- Externally observable actions of the controller, in program order. -/
inductive Event
  | publishFeedback (msg : String) (alert : Alert)
  | setAborted
  | setSucceeded
  | setPreempted
  | cancelHead
  | cancelMove
  | waitScan
  | waitMove
  | checkedPreempt (b : Bool)
  | tryIncr (n : ℕ)
  | broadcastRel
deriving DecidableEq

/-- Mutable server state threaded through the embedded methods, together
with the counters used to index the environment streams and the event
trace. -/
structure St where
  num_tries : ℕ
  max_tries : ℕ
  preempted : Bool
  map_to_aruco : Transform
  scanCnt : ℕ
  moveCnt : ℕ
  relCnt : ℕ
  arucoCnt : ℕ
  events : List Event

/-- Behaviour of the external collaborators for one request.

`scanFound i` is the truthiness of `head_scan_client.get_result()` after the
`i`-th head-scan wait; `preemptAtScan i` / `preemptAtMove i` tell whether a
preempt (cancel) request arrives during the `i`-th scan / move-base wait;
`moveResult i` is the opaque status value returned by the `i`-th
`move_base_client.send_goal_and_wait`; `lookupBaseLink` / `lookupMapInit`
are the results of the two unguarded lookups at source lines 86-87;
`lookupRel j` is the `j`-th lookup of `relative_pose` in `map` coordinates
(the sampling loop, line 153); `lookupAruco i` is the `i`-th drift-check
lookup of the marker in `map` coordinates (line 212).  `none` models the
tf2 lookup raising. -/
structure Env where
  scanFound : ℕ → Bool
  preemptAtScan : ℕ → Bool
  preemptAtMove : ℕ → Bool
  moveResult : ℕ → ℤ
  lookupBaseLink : Option Transform
  lookupMapInit : Option Transform
  lookupRel : ℕ → Option Transform
  lookupAruco : ℕ → Option Transform

/-- How a run of `execute_callback` ends: a plain return (`normal`), a
Python exception escaping the callback (`uncaught`), or exhaustion of the
modelling fuel (`fuelOut`, proved unreachable from request entry). -/
inductive RunEnd
  | normal
  | uncaught
  | fuelOut
deriving DecidableEq

/-- Append one event to the trace. -/
def emit (s : St) (e : Event) : St :=
  { s with events := s.events ++ [e] }

/-- `cancel_goals` (source lines 43-47): invoked by actionlib when a preempt
request arrives; cancels all goals of both action clients and calls
`self.server.set_preempted()`. -/
def cancel_goals (s : St) : St :=
  emit (emit (emit s Event.cancelHead) Event.cancelMove) Event.setPreempted

/-- `preempt_callback` (source lines 49-53): publishes the cancellation
feedback. -/
def preempt_callback (s : St) : St :=
  emit s (Event.publishFeedback cancelledMsg Alert.error)

/-- If a preempt request arrives during a collaborator wait, actionlib runs
the registered preempt callback `cancel_goals` at that point and
`is_preempt_requested` becomes (and stays) true. -/
def applyPreemptArrival (arrive : Bool) (s : St) : St :=
  if s.preempted then s
  else if arrive then cancel_goals { s with preempted := true }
  else s

/-- `head_scan_client.send_goal_and_wait` followed by `get_result()`:
returns the found/not-found outcome of the scan and the state after the
wait. -/
def doScanWait (env : Env) (s : St) : Bool × St :=
  let s1 := applyPreemptArrival (env.preemptAtScan s.scanCnt) s
  let s2 := emit s1 Event.waitScan
  (env.scanFound s2.scanCnt, { s2 with scanCnt := s2.scanCnt + 1 })

/-- `move_base_client.send_goal_and_wait`: state effect of the wait (the
status value itself is read from `Env.moveResult` at the call site, exactly
as the source binds it to `result`). -/
def doMoveWait (env : Env) (s : St) : St :=
  let s1 := applyPreemptArrival (env.preemptAtMove s.moveCnt) s
  let s2 := emit s1 Event.waitMove
  { s2 with moveCnt := s2.moveCnt + 1 }

/-- `self.server.is_preempt_requested()` together with the trace record of
the check. -/
def checkPreempt (s : St) : Bool × St :=
  (s.preempted, emit s (Event.checkedPreempt s.preempted))

/-- Feedback plus `set_aborted`, the "navigation failed" abort
(source lines 157-160, 192-195, 215-218). -/
def abortNavFailed (s : St) : St :=
  emit (emit s (Event.publishFeedback navFailedMsg Alert.error)) Event.setAborted

/-- Feedback plus `set_aborted`, the "marker not located" abort
(source lines 80-83, 203-206). -/
def abortMarkerNotFound (s : St) : St :=
  emit (emit s (Event.publishFeedback notFoundMsg Alert.error)) Event.setAborted

/-- Feedback plus `set_succeeded` (source lines 226-229). -/
def emitSucceeded (s : St) : St :=
  emit (emit s (Event.publishFeedback succeededMsg Alert.success)) Event.setSucceeded

/-- One step of the accumulation loop of `average_transforms`
(source lines 102-109): running sums of x, y and yaw. -/
def sumStep (eY : Quat → ℝ) (p : ℝ × ℝ × ℝ) (t : Transform) : ℝ × ℝ × ℝ :=
  (p.1 + t.translation.x, p.2.1 + t.translation.y, p.2.2 + eY t.rotation)

/-- `average_transforms` (source lines 93-121).

The Python function takes `trans = transforms[0]` as an alias, zeroes
`trans.transform.translation.z`, accumulates the x/y translations and the
extracted yaws of all samples into the fields of `trans`, divides by the
sample count, and overwrites `trans.transform.rotation` with
`quaternion_from_euler(0, 0, angle)`.  It thus mutates `transforms[0]` in
place and returns that same object.  The embedding returns the averaged
transform together with the final contents of the input list (first element
replaced by the mutated object, all other elements untouched).  An empty
input would raise `IndexError` in Python, modelled by `none`. -/
def average_transforms (eY : Quat → ℝ) (qY : ℝ → Quat) :
    List Transform → Option (Transform × List Transform)
  | [] => none
  | t0 :: rest =>
    let n : ℝ := ((t0 :: rest).length : ℝ)
    let acc := rest.foldl (sumStep eY)
      (t0.translation.x, t0.translation.y, eY t0.rotation)
    let res : Transform :=
      { translation := { x := acc.1 / n, y := acc.2.1 / n, z := 0 },
        rotation := qY (acc.2.2 / n) }
    some (res, res :: rest)

/-- `calculate_diff` (source lines 123-135): the convergence metric
`sqrt((Δx)² + (Δy)² + (Δyaw)²)` with the raw, non-wrapped yaw difference. -/
def calculate_diff (eY : Quat → ℝ) (t1 t2 : Transform) : ℝ :=
  Real.sqrt ((t1.translation.x - t2.translation.x) ^ 2 +
    (t1.translation.y - t2.translation.y) ^ 2 +
    (eY t1.rotation - eY t2.rotation) ^ 2)

/-- The sampling loop of `navigate_to_marker` (source lines 151-161):
`k` is the index of the next `lookupRel` consultation, the second argument
the number of samples still missing.  A single lookup failure terminates
the loop immediately with `none` (no retry of the failed index); the final
lookup index is returned alongside. -/
def collectSamples (lookup : ℕ → Option Transform) :
    ℕ → ℕ → List Transform → Option (List Transform) × ℕ
  | k, 0, acc => (some acc, k)
  | k, n + 1, acc =>
    match lookup k with
    | some t => collectSamples lookup (k + 1) n (acc ++ [t])
    | none => (none, k + 1)

/-- Source line 224 has no `return` after the recursive
`self.navigate_to_marker()` call: when the recursive cycle returns
normally, control falls through to lines 226-229 and publishes the success
feedback and `set_succeeded`; only a propagating exception (or, in the
model, fuel exhaustion) skips those lines. -/
def fallthroughSucceed : St × RunEnd → St × RunEnd
  | (s, RunEnd.normal) => (emitSucceeded s, RunEnd.normal)
  | r => r

/-- One navigation cycle: the body of `navigate_to_marker`
(source lines 137-183) together with the inlined body of its sole caller
continuation `move_base_aruco_callback` (source lines 185-230), which the
source invokes at line 183 with the move-base status value.  `recurse` is
the recursive re-entry into `navigate_to_marker` performed at source line
224 when the drift check fails.  Note the source has no `return` after
line 224: when the recursive call returns normally, control falls through
to lines 226-229 and publishes success regardless. -/
def navCycle (env : Env) (eY : Quat → ℝ) (qY : ℝ → Quat)
    (recurse : St → St × RunEnd) (s : St) : St × RunEnd :=
  let c1 := checkPreempt s
  if c1.1 then (preempt_callback c1.2, RunEnd.normal)
  else
    let n1 := c1.2.num_tries + 1
    let s2 := emit { c1.2 with num_tries := n1 } (Event.tryIncr n1)
    let s3 := emit s2 Event.broadcastRel
    let s4 := emit s3 (Event.publishFeedback navigatingMsg Alert.info)
    match collectSamples env.lookupRel s4.relCnt 10 [] with
    | (none, k) => (abortNavFailed { s4 with relCnt := k }, RunEnd.normal)
    | (some ts, k) =>
      let s5 := { s4 with relCnt := k }
      match average_transforms eY qY ts with
      | none => (s5, RunEnd.uncaught)
      | some _ =>
        let result := env.moveResult s5.moveCnt
        let s6 := doMoveWait env s5
        -- move_base_aruco_callback(result) --
        let c2 := checkPreempt s6
        if c2.1 then (preempt_callback c2.2, RunEnd.normal)
        else if c2.2.num_tries = c2.2.max_tries then
          (abortNavFailed { c2.2 with num_tries := 0 }, RunEnd.normal)
        else
          let sc := doScanWait env c2.2
          if !sc.1 then (abortMarkerNotFound sc.2, RunEnd.normal)
          else
            match env.lookupAruco sc.2.arucoCnt with
            | none =>
              (abortNavFailed { sc.2 with arucoCnt := sc.2.arucoCnt + 1 }, RunEnd.normal)
            | some newT =>
              let s9 := { sc.2 with arucoCnt := sc.2.arucoCnt + 1 }
              if 0.075 < calculate_diff eY s9.map_to_aruco newT then
                fallthroughSucceed (recurse { s9 with map_to_aruco := newT })
              else (emitSucceeded s9, RunEnd.normal)

/-- `navigate_to_marker` (source lines 137-183) run on fuel: the recursive
re-entry from `move_base_aruco_callback` consumes one fuel unit. -/
def navigate_to_marker (env : Env) (eY : Quat → ℝ) (qY : ℝ → Quat) :
    ℕ → St → St × RunEnd
  | 0, s => navCycle env eY qY (fun s0 => (s0, RunEnd.fuelOut)) s
  | fuel + 1, s => navCycle env eY qY (navigate_to_marker env eY qY fuel) s

/-- `execute_callback` (source lines 63-91): reset the attempt counter,
scan for the marker, check preempt, bail out if the marker was not found,
resolve the marker pose in `base_link` and `map` (both lookups unguarded:
a failure escapes the callback, `RunEnd.uncaught`), then enter
`navigate_to_marker`. -/
def execute_callback (env : Env) (eY : Quat → ℝ) (qY : ℝ → Quat)
    (s0 : St) : St × RunEnd :=
  let s := { s0 with num_tries := 0 }
  let s := emit s (Event.publishFeedback scanningMsg Alert.info)
  let sc := doScanWait env s
  let c := checkPreempt sc.2
  if c.1 then (preempt_callback c.2, RunEnd.normal)
  else if !sc.1 then (abortMarkerNotFound c.2, RunEnd.normal)
  else
    match env.lookupBaseLink with
    | none => (c.2, RunEnd.uncaught)
    | some _ =>
      match env.lookupMapInit with
      | none => (c.2, RunEnd.uncaught)
      | some m0 =>
        let s' := { c.2 with map_to_aruco := m0 }
        navigate_to_marker env eY qY s'.max_tries s'

/-- Identity quaternion value used for concrete runs. -/
def q0 : Quat := { x := 0, y := 0, z := 0, w := 1 }

/-- Zero transform used as the initial `map_to_aruco` cache. -/
def t0 : Transform := { translation := { x := 0, y := 0, z := 0 }, rotation := q0 }

/-- Fresh per-request server state: attempt counter zero, `max_tries = 3`
(source lines 23-24), no preempt pending, empty trace. -/
def initSt : St :=
  { num_tries := 0, max_tries := 3, preempted := false, map_to_aruco := t0,
    scanCnt := 0, moveCnt := 0, relCnt := 0, arucoCnt := 0, events := [] }

/-- One full request processed from a fresh server state. -/
def runRequest (env : Env) (eY : Quat → ℝ) (qY : ℝ → Quat) : St × RunEnd :=
  execute_callback env eY qY initSt

/-- Terminal result calls of the action server. -/
def Event.isTerminal : Event → Bool
  | Event.setAborted => true
  | Event.setSucceeded => true
  | Event.setPreempted => true
  | _ => false

/-- The terminal status of a request: actionlib accepts the first terminal
call per goal and rejects later ones. -/
def firstTerminal (tr : List Event) : Option Event :=
  tr.find? Event.isTerminal

/-- Recognise attempt-counter increments in a trace. -/
def isTryIncr : Event → Bool
  | Event.tryIncr _ => true
  | _ => false

/-- Formalisation of the placement claim of C9: every collaborator wait
return is immediately followed by a preempt check. -/
def checksAfterEveryWait (tr : List Event) : Prop :=
  ∀ i, (tr.get? i = some Event.waitScan ∨ tr.get? i = some Event.waitMove) →
    ∃ b, tr.get? (i + 1) = some (Event.checkedPreempt b)

/-- Concrete yaw extraction used to instantiate the abstract
`euler_from_quaternion` parameter in witnesses and counterexamples. -/
def eY0 : Quat → ℝ := fun q => q.z

/-- Concrete zero-roll-zero-pitch encoder used to instantiate the abstract
`quaternion_from_euler 0 0 _` parameter; satisfies `eY0 (qY0 a) = a`. -/
def qY0 : ℝ → Quat := fun a => { x := 0, y := 0, z := a, w := 1 }

/-- A sample whose z translation is nonzero, exhibiting the in-place
mutation of the first list element by `average_transforms`. -/
def tz : Transform := { translation := { x := 1, y := 2, z := 3 }, rotation := q0 }

/-- Pose pair at translation delta (0.1, 0) for the convergence-metric
claim. -/
def uA : Transform := { translation := { x := 0.1, y := 0, z := 0 }, rotation := q0 }

/-- Pose pair at translation delta (0.05, 0) for the convergence-metric
claim. -/
def vA : Transform := { translation := { x := 0.05, y := 0, z := 0 }, rotation := q0 }

/-- Marker world poses that never converge: the x translation advances by 1
per re-observation, so every convergence difference evaluates to 1. -/
def mSeq : ℕ → Transform := fun i =>
  { translation := { x := (i : ℝ), y := 0, z := 0 }, rotation := q0 }

/-- Environment of a request that converges at the first drift evaluation
while the move-base outcome value is a failure (status 4, ABORTED): scans
succeed, no preempt request ever arrives, every lookup returns the zero
transform, so the computed drift is 0. -/
def envC5 : Env :=
  { scanFound := fun _ => true
    preemptAtScan := fun _ => false
    preemptAtMove := fun _ => false
    moveResult := fun _ => 4
    lookupBaseLink := some t0
    lookupMapInit := some t0
    lookupRel := fun _ => some t0
    lookupAruco := fun _ => some t0 }

/-- Environment of a request whose marker estimate never converges: the
drift-check lookups walk along `mSeq`, each step at distance 1 from the
previous estimate. -/
def envNC : Env :=
  { scanFound := fun _ => true
    preemptAtScan := fun _ => false
    preemptAtMove := fun _ => false
    moveResult := fun _ => 3
    lookupBaseLink := some t0
    lookupMapInit := some (mSeq 0)
    lookupRel := fun _ => some t0
    lookupAruco := fun i => some (mSeq (i + 1)) }

/-- Environment whose unguarded initial `base_link` resolution (source line
86) raises while the initial scan succeeds. -/
def envBad : Env :=
  { scanFound := fun _ => true
    preemptAtScan := fun _ => false
    preemptAtMove := fun _ => false
    moveResult := fun _ => 3
    lookupBaseLink := none
    lookupMapInit := some t0
    lookupRel := fun _ => some t0
    lookupAruco := fun _ => some t0 }

/-- Environment for the cancellation scenario: a cancel request arrives
while the controller waits on the move-base collaborator. -/
def envC9 : Env :=
  { scanFound := fun _ => true
    preemptAtScan := fun _ => false
    preemptAtMove := fun _ => true
    moveResult := fun _ => 2
    lookupBaseLink := some t0
    lookupMapInit := some t0
    lookupRel := fun _ => some t0
    lookupAruco := fun _ => some t0 }

end StretchNav

namespace StretchNav

/-- The accumulation loop over `m` identical samples. -/
theorem foldl_sumStep_replicate (eY : Quat → ℝ) (t : Transform) :
    ∀ (m : ℕ) (a b c : ℝ),
      List.foldl (sumStep eY) (a, b, c) (List.replicate m t) =
        (a + m * t.translation.x, b + m * t.translation.y, c + m * eY t.rotation) := by
  intro m
  induction m with
  | zero => intro a b c; simp
  | succ m ih =>
    intro a b c
    rw [List.replicate_succ]
    simp only [List.foldl_cons, sumStep, ih]
    push_cast
    refine Prod.ext ?_ (Prod.ext ?_ ?_) <;> simp <;> ring

/-- C8: averaging `n ≥ 1` identical pose samples returns a pose with the
sample's x and y translation, z forced to 0, the orientation re-encoded
with zero roll and pitch (`qY` applied to the input's extracted yaw), and —
whenever re-encoding round-trips through yaw extraction — the same yaw as
the input sample. -/
theorem C8_average_identical (eY : Quat → ℝ) (qY : ℝ → Quat) (t : Transform)
    (n : ℕ) (hn : 1 ≤ n) (hrt : ∀ a, eY (qY a) = a) :
    ∃ res rest, average_transforms eY qY (List.replicate n t) = some (res, res :: rest) ∧
      res.translation.x = t.translation.x ∧
      res.translation.y = t.translation.y ∧
      res.translation.z = 0 ∧
      res.rotation = qY (eY t.rotation) ∧
      eY res.rotation = eY t.rotation := by
  obtain ⟨m, rfl⟩ : ∃ m, n = m + 1 := ⟨n - 1, by omega⟩
  rw [List.replicate_succ]
  refine ⟨_, List.replicate m t, rfl, ?_, ?_, rfl, ?_, ?_⟩
  · simp only [foldl_sumStep_replicate]
    have hm : ((t :: List.replicate m t).length : ℝ) = (m : ℝ) + 1 := by
      simp
    rw [hm]
    have : ((m : ℝ) + 1) ≠ 0 := by positivity
    field_simp
    ring
  · simp only [foldl_sumStep_replicate]
    have hm : ((t :: List.replicate m t).length : ℝ) = (m : ℝ) + 1 := by
      simp
    rw [hm]
    have : ((m : ℝ) + 1) ≠ 0 := by positivity
    field_simp
    ring
  · simp only [foldl_sumStep_replicate]
    have hm : ((t :: List.replicate m t).length : ℝ) = (m : ℝ) + 1 := by
      simp
    rw [hm]
    have h1 : ((m : ℝ) + 1) ≠ 0 := by positivity
    have : (eY t.rotation + (m : ℝ) * eY t.rotation) / ((m : ℝ) + 1) = eY t.rotation := by
      field_simp
      ring
    rw [this]
  · simp only [foldl_sumStep_replicate]
    have hm : ((t :: List.replicate m t).length : ℝ) = (m : ℝ) + 1 := by
      simp
    rw [hm]
    have h1 : ((m : ℝ) + 1) ≠ 0 := by positivity
    have : (eY t.rotation + (m : ℝ) * eY t.rotation) / ((m : ℝ) + 1) = eY t.rotation := by
      field_simp
      ring
    rw [this, hrt]

/-- C3 is false on the code: `average_transforms` is not pure in its input
list.  Averaging the single sample `tz` (translation (1,2,3)) mutates the
first (and only) element in place — its z translation is forced to 0 —
so the input list does not survive the call unchanged. -/
theorem C3_mutates_first_sample :
    ¬ ∃ p, average_transforms eY0 qY0 [tz] = some (p, [tz]) := by
  rintro ⟨p, hp⟩
  simp only [average_transforms, sumStep, List.foldl_nil, Option.some.injEq,
    Prod.mk.injEq, List.cons.injEq, and_true] at hp
  have hz := congrArg (fun t => t.translation.z) hp.2
  simp [tz] at hz

/-- C3 amended: `average_transforms` leaves every element of the input list
except the first unchanged; the first element is mutated in place and is
the very object returned as the average (the Python alias
`trans = transforms[0]`). -/
theorem C3_amended_tail_unchanged (eY : Quat → ℝ) (qY : ℝ → Quat)
    (t : Transform) (rest : List Transform) :
    ∃ r, average_transforms eY qY (t :: rest) = some (r, r :: rest) :=
  ⟨_, rfl⟩

/-- C7: `calculate_diff` returns `sqrt((Δx)² + (Δy)² + (Δyaw)²)` with the
raw non-wrapped yaw difference; a translation delta of (0.1, 0) with zero
yaw delta yields 0.1, which exceeds the threshold 0.075 (not converged),
while a delta of (0.05, 0) yields 0.05, at or below the threshold
(converged). -/
theorem C7_convergence_metric (eY : Quat → ℝ) (t1 t2 u1 u2 v1 v2 : Transform)
    (hu1 : u1.translation.x - u2.translation.x = 0.1)
    (hu2 : u1.translation.y = u2.translation.y)
    (hu3 : eY u1.rotation = eY u2.rotation)
    (hv1 : v1.translation.x - v2.translation.x = 0.05)
    (hv2 : v1.translation.y = v2.translation.y)
    (hv3 : eY v1.rotation = eY v2.rotation) :
    calculate_diff eY t1 t2 =
      Real.sqrt ((t1.translation.x - t2.translation.x) ^ 2 +
        (t1.translation.y - t2.translation.y) ^ 2 +
        (eY t1.rotation - eY t2.rotation) ^ 2) ∧
    calculate_diff eY u1 u2 = 0.1 ∧
    0.075 < calculate_diff eY u1 u2 ∧
    calculate_diff eY v1 v2 = 0.05 ∧
    ¬ 0.075 < calculate_diff eY v1 v2 := by
  have hu : calculate_diff eY u1 u2 = 0.1 := by
    unfold calculate_diff
    rw [hu1, hu2, hu3]
    have h : (0.1 : ℝ) ^ 2 + (u2.translation.y - u2.translation.y) ^ 2 +
        (eY u2.rotation - eY u2.rotation) ^ 2 = (0.1 : ℝ) ^ 2 := by ring
    rw [h, Real.sqrt_sq (by norm_num)]
  have hv : calculate_diff eY v1 v2 = 0.05 := by
    unfold calculate_diff
    rw [hv1, hv2, hv3]
    have h : (0.05 : ℝ) ^ 2 + (v2.translation.y - v2.translation.y) ^ 2 +
        (eY v2.rotation - eY v2.rotation) ^ 2 = (0.05 : ℝ) ^ 2 := by ring
    rw [h, Real.sqrt_sq (by norm_num)]
  refine ⟨rfl, hu, ?_, hv, ?_⟩
  · rw [hu]; norm_num
  · rw [hv]; norm_num

/-- C7 witness: the theorem applied at the concrete pose pairs
(0.1, 0, same yaw) and (0.05, 0, same yaw). -/
theorem C7_convergence_metric_witness :
    calculate_diff eY0 t0 t0 =
      Real.sqrt ((t0.translation.x - t0.translation.x) ^ 2 +
        (t0.translation.y - t0.translation.y) ^ 2 +
        (eY0 t0.rotation - eY0 t0.rotation) ^ 2) ∧
    calculate_diff eY0 uA t0 = 0.1 ∧
    0.075 < calculate_diff eY0 uA t0 ∧
    calculate_diff eY0 vA t0 = 0.05 ∧
    ¬ 0.075 < calculate_diff eY0 vA t0 :=
  C7_convergence_metric eY0 t0 t0 uA t0 vA t0
    (by simp [uA, t0]) (by simp [uA, t0]) (by simp [uA, t0])
    (by simp [vA, t0]) (by simp [vA, t0]) (by simp [vA, t0])

/-- C8 witness: the theorem applied at two identical concrete samples with
the concrete round-tripping extraction/encoding pair. -/
theorem C8_average_identical_witness :
    ∃ res rest,
      average_transforms eY0 qY0
        (List.replicate 2 { translation := { x := 1, y := 2, z := 3 }, rotation := q0 }) =
          some (res, res :: rest) ∧
      res.translation.x =
        ({ translation := { x := 1, y := 2, z := 3 }, rotation := q0 } : Transform).translation.x ∧
      res.translation.y =
        ({ translation := { x := 1, y := 2, z := 3 }, rotation := q0 } : Transform).translation.y ∧
      res.translation.z = 0 ∧
      res.rotation = qY0 (eY0 ({ translation := { x := 1, y := 2, z := 3 }, rotation := q0 } : Transform).rotation) ∧
      eY0 res.rotation = eY0 ({ translation := { x := 1, y := 2, z := 3 }, rotation := q0 } : Transform).rotation :=
  C8_average_identical eY0 qY0 _ 2 (by norm_num) (fun a => rfl)

/-- A successful run of the sampling loop has consumed exactly `n` lookups
and extends the accumulator by exactly `n` samples. -/
theorem collect_some_length (lookup : ℕ → Option Transform) :
    ∀ (n k : ℕ) (acc ts : List Transform) (k' : ℕ),
      collectSamples lookup k n acc = (some ts, k') →
      ts.length = acc.length + n ∧ k' = k + n := by
  intro n
  induction n with
  | zero =>
    intro k acc ts k' h
    simp only [collectSamples, Prod.mk.injEq, Option.some.injEq] at h
    rw [← h.1, ← h.2]
    omega
  | succ n ih =>
    intro k acc ts k' h
    simp only [collectSamples] at h
    cases hl : lookup k with
    | some t =>
      rw [hl] at h
      have := ih (k + 1) (acc ++ [t]) ts k' h
      simp only [List.length_append, List.length_cons, List.length_nil] at this
      omega
    | none =>
      rw [hl] at h
      simp at h

/-- When every lookup in the window succeeds, the sampling loop returns the
looked-up samples in resolution order, consuming exactly `n` lookups. -/
theorem collect_ok (lookup : ℕ → Option Transform) (g : ℕ → Transform) :
    ∀ (n k : ℕ) (acc : List Transform),
      (∀ j, k ≤ j → j < k + n → lookup j = some (g j)) →
      collectSamples lookup k n acc =
        (some (acc ++ (List.range n).map fun j => g (k + j)), k + n) := by
  intro n
  induction n with
  | zero => intro k acc h; simp [collectSamples]
  | succ n ih =>
    intro k acc h
    have hk : lookup k = some (g k) := h k le_rfl (by omega)
    simp only [collectSamples, hk]
    rw [ih (k + 1) (acc ++ [g k]) (fun j h1 h2 => h j (by omega) (by omega))]
    have hlist : (acc ++ [g k]) ++ (List.range n).map (fun j => g (k + 1 + j)) =
        acc ++ (List.range (n + 1)).map fun j => g (k + j) := by
      rw [List.append_assoc, List.range_succ_eq_map]
      simp only [List.map_cons, List.map_map, List.singleton_append, Nat.add_zero]
      have : ((fun j => g (k + j)) ∘ Nat.succ) = fun j => g (k + 1 + j) := by
        funext j
        simp only [Function.comp]
        congr 1
        omega
      rw [this]
    rw [hlist]
    have : k + 1 + n = k + (n + 1) := by omega
    rw [this]

/-- A single lookup failure at offset `i` terminates the sampling loop at
once: no sample list is produced and exactly `i + 1` lookups were
consumed (the failed one is not retried). -/
theorem collect_fail (lookup : ℕ → Option Transform) :
    ∀ (i n k : ℕ) (acc : List Transform),
      i < n →
      (∀ j, k ≤ j → j < k + i → (lookup j).isSome) →
      lookup (k + i) = none →
      collectSamples lookup k n acc = (none, k + i + 1) := by
  intro i
  induction i with
  | zero =>
    intro n k acc hn hs hnone
    obtain ⟨m, rfl⟩ : ∃ m, n = m + 1 := ⟨n - 1, by omega⟩
    rw [Nat.add_zero] at hnone
    simp only [collectSamples, hnone]
  | succ i ih =>
    intro n k acc hn hs hnone
    obtain ⟨m, rfl⟩ : ∃ m, n = m + 1 := ⟨n - 1, by omega⟩
    have hk : (lookup k).isSome := hs k le_rfl (by omega)
    obtain ⟨t, ht⟩ := Option.isSome_iff_exists.mp hk
    simp only [collectSamples, ht]
    have heq := ih m (k + 1) (acc ++ [t]) (by omega)
      (fun j h1 h2 => hs j (by omega) (by omega))
      (by rw [show k + 1 + i = k + (i + 1) from by omega]; exact hnone)
    rw [heq]
    simp only [Prod.mk.injEq, and_true, true_and]
    omega

/-- A navigation cycle entered with no pending preempt whose sampling loop
hits a lookup failure at offset `i` aborts at once with the "navigation
failed" feedback: no move-base goal is issued and the failed lookup is not
retried. -/
theorem navCycle_sample_fail (env : Env) (eY : Quat → ℝ) (qY : ℝ → Quat)
    (recurse : St → St × RunEnd) (s : St) (i : ℕ) (hp : s.preempted = false)
    (hi : i < 10)
    (hsome : ∀ j, s.relCnt ≤ j → j < s.relCnt + i → (env.lookupRel j).isSome)
    (hnone : env.lookupRel (s.relCnt + i) = none) :
    (navCycle env eY qY recurse s).2 = RunEnd.normal ∧
    (navCycle env eY qY recurse s).1.events = s.events ++
      [Event.checkedPreempt false, Event.tryIncr (s.num_tries + 1),
       Event.broadcastRel, Event.publishFeedback navigatingMsg Alert.info,
       Event.publishFeedback navFailedMsg Alert.error, Event.setAborted] ∧
    (navCycle env eY qY recurse s).1.relCnt = s.relCnt + i + 1 := by
  have hcol := collect_fail env.lookupRel i 10 s.relCnt [] hi hsome hnone
  simp [navCycle, checkPreempt, hp, emit, abortNavFailed, hcol]

/-- C6: the transform-sampling phase of a navigation cycle collects exactly
10 samples before averaging (first conjunct, with its length), and a single
resolution failure at any offset `i < 10` aborts the whole request
immediately with the "navigation failed" feedback — the emitted event
suffix contains no move-base wait (no navigation goal is issued for that
cycle) and exactly `i + 1` lookups were consumed (no partial retry). -/
theorem C6_sampling (env : Env) (eY : Quat → ℝ) (qY : ℝ → Quat)
    (fuel : ℕ) (s : St) (g : ℕ → Transform)
    (hp : s.preempted = false) :
    ((∀ j, s.relCnt ≤ j → j < s.relCnt + 10 → env.lookupRel j = some (g j)) →
      collectSamples env.lookupRel s.relCnt 10 [] =
        (some ((List.range 10).map fun j => g (s.relCnt + j)), s.relCnt + 10) ∧
      ((List.range 10).map fun j => g (s.relCnt + j)).length = 10) ∧
    (∀ i, i < 10 →
      (∀ j, s.relCnt ≤ j → j < s.relCnt + i → (env.lookupRel j).isSome) →
      env.lookupRel (s.relCnt + i) = none →
      (navigate_to_marker env eY qY fuel s).2 = RunEnd.normal ∧
      (navigate_to_marker env eY qY fuel s).1.events = s.events ++
        [Event.checkedPreempt false, Event.tryIncr (s.num_tries + 1),
         Event.broadcastRel, Event.publishFeedback navigatingMsg Alert.info,
         Event.publishFeedback navFailedMsg Alert.error, Event.setAborted] ∧
      Event.waitMove ∉
        [Event.checkedPreempt false, Event.tryIncr (s.num_tries + 1),
         Event.broadcastRel, Event.publishFeedback navigatingMsg Alert.info,
         Event.publishFeedback navFailedMsg Alert.error, Event.setAborted] ∧
      (navigate_to_marker env eY qY fuel s).1.relCnt = s.relCnt + i + 1) := by
  constructor
  · intro hall
    constructor
    · rw [collect_ok env.lookupRel g 10 s.relCnt [] hall]
      simp
    · simp
  · intro i hi hsome hnone
    cases fuel with
    | zero =>
      have h := navCycle_sample_fail env eY qY (fun s0 => (s0, RunEnd.fuelOut)) s i hp hi hsome hnone
      refine ⟨h.1, h.2.1, by simp, h.2.2⟩
    | succ fuel =>
      have h := navCycle_sample_fail env eY qY (navigate_to_marker env eY qY fuel) s i hp hi hsome hnone
      refine ⟨h.1, h.2.1, by simp, h.2.2⟩

/-- C6 witness: the theorem applied at the first navigation cycle of a
fresh request against the all-succeeding concrete environment. -/
theorem C6_sampling_witness :
    ((∀ j, initSt.relCnt ≤ j → j < initSt.relCnt + 10 →
        envC5.lookupRel j = some ((fun _ => t0) j)) →
      collectSamples envC5.lookupRel initSt.relCnt 10 [] =
        (some ((List.range 10).map fun j => (fun _ => t0) (initSt.relCnt + j)),
          initSt.relCnt + 10) ∧
      ((List.range 10).map fun j => (fun _ => t0) (initSt.relCnt + j)).length = 10) ∧
    (∀ i, i < 10 →
      (∀ j, initSt.relCnt ≤ j → j < initSt.relCnt + i →
        (envC5.lookupRel j).isSome) →
      envC5.lookupRel (initSt.relCnt + i) = none →
      (navigate_to_marker envC5 eY0 qY0 3 initSt).2 = RunEnd.normal ∧
      (navigate_to_marker envC5 eY0 qY0 3 initSt).1.events = initSt.events ++
        [Event.checkedPreempt false, Event.tryIncr (initSt.num_tries + 1),
         Event.broadcastRel, Event.publishFeedback navigatingMsg Alert.info,
         Event.publishFeedback navFailedMsg Alert.error, Event.setAborted] ∧
      Event.waitMove ∉
        [Event.checkedPreempt false, Event.tryIncr (initSt.num_tries + 1),
         Event.broadcastRel, Event.publishFeedback navigatingMsg Alert.info,
         Event.publishFeedback navFailedMsg Alert.error, Event.setAborted] ∧
      (navigate_to_marker envC5 eY0 qY0 3 initSt).1.relCnt = initSt.relCnt + i + 1) :=
  C6_sampling envC5 eY0 qY0 3 initSt (fun _ => t0) rfl

/-- Composition step for the recursion bound: if the recursive cycle entered
at state `R` (one attempt deeper than `s`) satisfies the bound, then so does
the fall-through wrapper around it, relative to `s`. -/
theorem leaf_rec (env : Env) (eY : Quat → ℝ) (qY : ℝ → Quat) (fuel : ℕ)
    (s R : St)
    (ihyp : ∀ u : St, u.num_tries < u.max_tries → u.max_tries ≤ fuel + u.num_tries →
      (navigate_to_marker env eY qY fuel u).2 = RunEnd.normal ∧
      (navigate_to_marker env eY qY fuel u).1.num_tries ≤ u.max_tries ∧
      (∀ n, Event.tryIncr n ∈ (navigate_to_marker env eY qY fuel u).1.events →
        Event.tryIncr n ∈ u.events ∨ (u.num_tries < n ∧ n ≤ u.max_tries)) ∧
      (navigate_to_marker env eY qY fuel u).1.events.countP isTryIncr ≤
        u.events.countP isTryIncr + (u.max_tries - u.num_tries))
    (hRn : R.num_tries = s.num_tries + 1) (hRm : R.max_tries = s.max_tries)
    (hRc : R.events.countP isTryIncr = s.events.countP isTryIncr + 1)
    (hRe : ∀ n, Event.tryIncr n ∈ R.events →
      Event.tryIncr n ∈ s.events ∨ n = s.num_tries + 1)
    (hax : s.num_tries + 1 < s.max_tries)
    (h2 : s.max_tries ≤ fuel + 1 + s.num_tries) :
    (fallthroughSucceed (navigate_to_marker env eY qY fuel R)).2 = RunEnd.normal ∧
    (fallthroughSucceed (navigate_to_marker env eY qY fuel R)).1.num_tries ≤ s.max_tries ∧
    (∀ n, Event.tryIncr n ∈
        (fallthroughSucceed (navigate_to_marker env eY qY fuel R)).1.events →
      Event.tryIncr n ∈ s.events ∨ (s.num_tries < n ∧ n ≤ s.max_tries)) ∧
    (fallthroughSucceed (navigate_to_marker env eY qY fuel R)).1.events.countP isTryIncr ≤
      s.events.countP isTryIncr + (s.max_tries - s.num_tries) := by
  obtain ⟨He, Hn, Hm, Hc⟩ := ihyp R (by omega) (by omega)
  rcases hnav : navigate_to_marker env eY qY fuel R with ⟨s11, e⟩
  rw [hnav] at He Hn Hm Hc
  simp only at He Hn Hm Hc
  subst He
  simp only [fallthroughSucceed]
  refine ⟨trivial, ?_, ?_, ?_⟩
  · show s11.num_tries ≤ s.max_tries
    rw [← hRm]
    exact Hn
  · intro n hn
    have hn' : Event.tryIncr n ∈ s11.events := by
      simp only [emitSucceeded, emit, List.mem_append, List.mem_singleton] at hn
      rcases hn with (hn | hn) | hn
      · exact hn
      · simp at hn
      · simp at hn
    rcases Hm n hn' with h | h
    · rcases hRe n h with h' | h'
      · exact Or.inl h'
      · exact Or.inr ⟨by omega, by omega⟩
    · exact Or.inr ⟨by omega, by omega⟩
  · have hcp : ((emitSucceeded s11, RunEnd.normal) :
        St × RunEnd).1.events.countP isTryIncr = s11.events.countP isTryIncr := by
      simp [emitSucceeded, emit, List.countP_append, isTryIncr]
    rw [hcp]
    omega

/-- Core bound on the navigate/evaluate recursion: entered with
`num_tries < max_tries` and fuel at least `max_tries - num_tries`, a
navigation cycle always returns normally (never exhausts fuel, never lets
an exception escape), keeps the attempt counter at most `max_tries`, emits
attempt increments only with values in `(num_tries, max_tries]`, and emits
at most `max_tries - num_tries` of them. -/
theorem navBound (env : Env) (eY : Quat → ℝ) (qY : ℝ → Quat) :
    ∀ (fuel : ℕ) (s : St),
      s.num_tries < s.max_tries →
      s.max_tries ≤ fuel + s.num_tries →
      (navigate_to_marker env eY qY fuel s).2 = RunEnd.normal ∧
      (navigate_to_marker env eY qY fuel s).1.num_tries ≤ s.max_tries ∧
      (∀ n, Event.tryIncr n ∈ (navigate_to_marker env eY qY fuel s).1.events →
        Event.tryIncr n ∈ s.events ∨ (s.num_tries < n ∧ n ≤ s.max_tries)) ∧
      (navigate_to_marker env eY qY fuel s).1.events.countP isTryIncr ≤
        s.events.countP isTryIncr + (s.max_tries - s.num_tries) := by
  intro fuel
  induction fuel with
  | zero => intro s h1 h2; exact absurd h2 (by omega)
  | succ fuel ih =>
    intro s h1 h2
    simp only [navigate_to_marker]
    cases hp : s.preempted with
    | true =>
      simp [navCycle, checkPreempt, preempt_callback, emit, hp, isTryIncr,
        List.countP_append]
      exact ⟨by omega, fun n hn => Or.inl hn⟩
    | false =>
      rcases hcol : collectSamples env.lookupRel s.relCnt 10 [] with ⟨ots, k⟩
      cases ots with
      | none =>
        simp [navCycle, checkPreempt, emit, hp, hcol, abortNavFailed, isTryIncr,
          List.countP_append]
        refine ⟨by omega, ?_, by omega⟩
        rintro n (hn | rfl)
        · exact Or.inl hn
        · exact Or.inr ⟨by omega, by omega⟩
      | some ts =>
        obtain ⟨hlen, hk⟩ := collect_some_length env.lookupRel 10 s.relCnt [] ts k hcol
        obtain ⟨tA, ts', rfl⟩ : ∃ a l, ts = a :: l := by
          cases ts with
          | nil => simp at hlen
          | cons a l => exact ⟨a, l, rfl⟩
        cases harrM : env.preemptAtMove s.moveCnt with
        | true =>
          simp [navCycle, checkPreempt, emit, hp, hcol, average_transforms,
            doMoveWait, applyPreemptArrival, cancel_goals, preempt_callback,
            harrM, isTryIncr, List.countP_append]
          refine ⟨by omega, ?_, by omega⟩
          rintro n (hn | rfl)
          · exact Or.inl hn
          · exact Or.inr ⟨by omega, by omega⟩
        | false =>
          by_cases hmax : s.num_tries + 1 = s.max_tries
          · simp [navCycle, checkPreempt, emit, hp, hcol, average_transforms,
              doMoveWait, applyPreemptArrival, harrM, hmax, abortNavFailed,
              isTryIncr, List.countP_append]
            refine ⟨?_, by omega⟩
            rintro n (hn | rfl)
            · exact Or.inl hn
            · exact Or.inr ⟨by omega, by omega⟩
          · cases harrS : env.preemptAtScan s.scanCnt with
            | true =>
              cases hfound : env.scanFound s.scanCnt with
              | false =>
                simp [navCycle, checkPreempt, emit, hp, hcol, average_transforms,
                  doMoveWait, doScanWait, applyPreemptArrival, cancel_goals,
                  harrM, hmax, harrS, hfound, abortMarkerNotFound, isTryIncr,
                  List.countP_append]
                refine ⟨by omega, ?_, by omega⟩
                rintro n (hn | rfl)
                · exact Or.inl hn
                · exact Or.inr ⟨by omega, by omega⟩
              | true =>
                cases haru : env.lookupAruco s.arucoCnt with
                | none =>
                  simp [navCycle, checkPreempt, emit, hp, hcol, average_transforms,
                    doMoveWait, doScanWait, applyPreemptArrival, cancel_goals,
                    harrM, hmax, harrS, hfound, haru, abortNavFailed, isTryIncr,
                    List.countP_append]
                  refine ⟨by omega, ?_, by omega⟩
                  rintro n (hn | rfl)
                  · exact Or.inl hn
                  · exact Or.inr ⟨by omega, by omega⟩
                | some newT =>
                  by_cases hdiff : 0.075 < calculate_diff eY s.map_to_aruco newT
                  · simp [navCycle, checkPreempt, emit, hp, hcol, average_transforms,
                      doMoveWait, doScanWait, applyPreemptArrival, cancel_goals,
                      harrM, hmax, harrS, hfound, haru, hdiff, isTryIncr,
                      List.countP_append]
                    refine leaf_rec env eY qY fuel s _ ih (by simp) (by simp) ?_ ?_ (by omega) (by omega)
                    · simp [List.countP_append, isTryIncr]
                    · intro n hn
                      simp only [List.mem_append] at hn
                      rcases hn with hn | hn
                      · exact Or.inl hn
                      · right
                        simpa using hn
                  · simp [navCycle, checkPreempt, emit, hp, hcol, average_transforms,
                      doMoveWait, doScanWait, applyPreemptArrival, cancel_goals,
                      harrM, hmax, harrS, hfound, haru, hdiff, emitSucceeded,
                      isTryIncr, List.countP_append]
                    refine ⟨by omega, ?_, by omega⟩
                    rintro n (hn | rfl)
                    · exact Or.inl hn
                    · exact Or.inr ⟨by omega, by omega⟩
            | false =>
              cases hfound : env.scanFound s.scanCnt with
              | false =>
                simp [navCycle, checkPreempt, emit, hp, hcol, average_transforms,
                  doMoveWait, doScanWait, applyPreemptArrival,
                  harrM, hmax, harrS, hfound, abortMarkerNotFound, isTryIncr,
                  List.countP_append]
                refine ⟨by omega, ?_, by omega⟩
                rintro n (hn | rfl)
                · exact Or.inl hn
                · exact Or.inr ⟨by omega, by omega⟩
              | true =>
                cases haru : env.lookupAruco s.arucoCnt with
                | none =>
                  simp [navCycle, checkPreempt, emit, hp, hcol, average_transforms,
                    doMoveWait, doScanWait, applyPreemptArrival,
                    harrM, hmax, harrS, hfound, haru, abortNavFailed, isTryIncr,
                    List.countP_append]
                  refine ⟨by omega, ?_, by omega⟩
                  rintro n (hn | rfl)
                  · exact Or.inl hn
                  · exact Or.inr ⟨by omega, by omega⟩
                | some newT =>
                  by_cases hdiff : 0.075 < calculate_diff eY s.map_to_aruco newT
                  · simp [navCycle, checkPreempt, emit, hp, hcol, average_transforms,
                      doMoveWait, doScanWait, applyPreemptArrival,
                      harrM, hmax, harrS, hfound, haru, hdiff, isTryIncr,
                      List.countP_append]
                    refine leaf_rec env eY qY fuel s _ ih (by simp) (by simp) ?_ ?_ (by omega) (by omega)
                    · simp [List.countP_append, isTryIncr]
                    · intro n hn
                      simp only [List.mem_append] at hn
                      rcases hn with hn | hn
                      · exact Or.inl hn
                      · right
                        simpa using hn
                  · simp [navCycle, checkPreempt, emit, hp, hcol, average_transforms,
                      doMoveWait, doScanWait, applyPreemptArrival,
                      harrM, hmax, harrS, hfound, haru, hdiff, emitSucceeded,
                      isTryIncr, List.countP_append]
                    refine ⟨by omega, ?_, by omega⟩
                    rintro n (hn | rfl)
                    · exact Or.inl hn
                    · exact Or.inr ⟨by omega, by omega⟩

/-- Entering `navigate_to_marker` with a zeroed attempt counter and fuel
equal to `max_tries` never exhausts fuel and returns normally. -/
theorem exec_nav_normal (env : Env) (eY : Quat → ℝ) (qY : ℝ → Quat)
    (f : ℕ) (R : St) (hm : R.max_tries = f) (h1 : 1 ≤ f)
    (h0 : R.num_tries = 0) :
    (navigate_to_marker env eY qY f R).2 = RunEnd.normal :=
  (navBound env eY qY f R (by omega) (by omega)).1

/-- Composition of `navBound` with the request-entry state produced by
`execute_callback` (attempt counter reset to 0, `max_tries = 3`). -/
theorem exec_nav_leaf (env : Env) (eY : Quat → ℝ) (qY : ℝ → Quat)
    (s0 R : St)
    (hRn : R.num_tries = 0) (hRm : R.max_tries = 3)
    (hRe : ∀ n, Event.tryIncr n ∈ R.events → Event.tryIncr n ∈ s0.events)
    (hRc : R.events.countP isTryIncr = s0.events.countP isTryIncr) :
    (navigate_to_marker env eY qY 3 R).2 ≠ RunEnd.fuelOut ∧
    (navigate_to_marker env eY qY 3 R).1.num_tries ≤ 3 ∧
    (∀ n, Event.tryIncr n ∈ (navigate_to_marker env eY qY 3 R).1.events →
      Event.tryIncr n ∈ s0.events ∨ (1 ≤ n ∧ n ≤ 3)) ∧
    (navigate_to_marker env eY qY 3 R).1.events.countP isTryIncr ≤
      s0.events.countP isTryIncr + 3 := by
  obtain ⟨He, Hn, Hm, Hc⟩ := navBound env eY qY 3 R (by omega) (by omega)
  refine ⟨by rw [He]; simp, by omega, ?_, by omega⟩
  intro n hn
  rcases Hm n hn with h | h
  · exact Or.inl (hRe n h)
  · exact Or.inr ⟨by omega, by omega⟩

/-- C10: over the whole processing of a request with `max_tries = 3`, the
attempt counter is reset on acceptance and every increment recorded has a
value between 1 and 3, at most 3 navigation cycles begin (at most 3
increments), the final counter value is at most 3, and the
navigate/evaluate recursion never exhausts its depth-3 fuel. -/
theorem C10_attempt_bound (env : Env) (eY : Quat → ℝ) (qY : ℝ → Quat)
    (s0 : St) (hmax : s0.max_tries = 3) :
    (execute_callback env eY qY s0).2 ≠ RunEnd.fuelOut ∧
    (execute_callback env eY qY s0).1.num_tries ≤ 3 ∧
    (∀ n, Event.tryIncr n ∈ (execute_callback env eY qY s0).1.events →
      Event.tryIncr n ∈ s0.events ∨ (1 ≤ n ∧ n ≤ 3)) ∧
    (execute_callback env eY qY s0).1.events.countP isTryIncr ≤
      s0.events.countP isTryIncr + 3 := by
  cases hp0 : s0.preempted with
  | true =>
    simp [execute_callback, doScanWait, applyPreemptArrival, checkPreempt,
      preempt_callback, abortMarkerNotFound, emit, hp0, isTryIncr,
      List.countP_append]
    exact fun n hn => Or.inl hn
  | false =>
    cases harr : env.preemptAtScan s0.scanCnt with
    | true =>
      simp [execute_callback, doScanWait, applyPreemptArrival, checkPreempt,
        preempt_callback, cancel_goals, emit, hp0, harr, isTryIncr,
        List.countP_append]
      exact fun n hn => Or.inl hn
    | false =>
      cases hfound : env.scanFound s0.scanCnt with
      | false =>
        simp [execute_callback, doScanWait, applyPreemptArrival, checkPreempt,
          abortMarkerNotFound, emit, hp0, harr, hfound, isTryIncr,
          List.countP_append]
        exact fun n hn => Or.inl hn
      | true =>
        cases hbase : env.lookupBaseLink with
        | none =>
          simp [execute_callback, doScanWait, applyPreemptArrival, checkPreempt,
            emit, hp0, harr, hfound, hbase, isTryIncr, List.countP_append]
          exact fun n hn => Or.inl hn
        | some tb =>
          cases hinit : env.lookupMapInit with
          | none =>
            simp [execute_callback, doScanWait, applyPreemptArrival, checkPreempt,
              emit, hp0, harr, hfound, hbase, hinit, isTryIncr, List.countP_append]
            exact fun n hn => Or.inl hn
          | some m0 =>
            simp [execute_callback, doScanWait, applyPreemptArrival, checkPreempt,
              emit, hp0, harr, hfound, hbase, hinit, hmax, isTryIncr,
              List.countP_append]
            refine exec_nav_leaf env eY qY s0 _ (by simp) (by simp) ?_ ?_
            · intro n hn
              simpa using hn
            · simp [List.countP_append, isTryIncr]

/-- C10 witness: the theorem applied at a fresh request state against the
converging concrete environment. -/
theorem C10_attempt_bound_witness :
    (execute_callback envC5 eY0 qY0 initSt).2 ≠ RunEnd.fuelOut ∧
    (execute_callback envC5 eY0 qY0 initSt).1.num_tries ≤ 3 ∧
    (∀ n, Event.tryIncr n ∈ (execute_callback envC5 eY0 qY0 initSt).1.events →
      Event.tryIncr n ∈ initSt.events ∨ (1 ≤ n ∧ n ≤ 3)) ∧
    (execute_callback envC5 eY0 qY0 initSt).1.events.countP isTryIncr ≤
      initSt.events.countP isTryIncr + 3 :=
  C10_attempt_bound envC5 eY0 qY0 initSt rfl

/-- C2 is false as stated: the two marker-pose resolutions performed right
after a successful initial scan (source lines 86-87) are not guarded by any
try/except, so a lookup failure there escapes `execute_callback` as an
uncaught exception instead of aborting the request gracefully. -/
theorem C2_initial_lookup_uncaught :
    (runRequest envBad eY0 qY0).2 = RunEnd.uncaught := by
  simp [runRequest, execute_callback, doScanWait, applyPreemptArrival,
    checkPreempt, emit, initSt, envBad]

/-- C2 amended: provided the two unguarded initial resolutions succeed,
every later lookup failure (sampling loop and drift check, which are
wrapped in try/except in the source) is caught and only aborts the current
request — the callback always returns normally, nothing fatal escapes. -/
theorem C2_amended_lookups_recoverable (env : Env) (eY : Quat → ℝ)
    (qY : ℝ → Quat) (s0 : St)
    (hbase : env.lookupBaseLink.isSome) (hinit : env.lookupMapInit.isSome)
    (hmt : 1 ≤ s0.max_tries) :
    (execute_callback env eY qY s0).2 = RunEnd.normal := by
  obtain ⟨tb, hb⟩ := Option.isSome_iff_exists.mp hbase
  obtain ⟨m0, hm⟩ := Option.isSome_iff_exists.mp hinit
  cases hp0 : s0.preempted with
  | true =>
    simp [execute_callback, doScanWait, applyPreemptArrival, checkPreempt,
      preempt_callback, emit, hp0]
  | false =>
    cases harr : env.preemptAtScan s0.scanCnt with
    | true =>
      simp [execute_callback, doScanWait, applyPreemptArrival, checkPreempt,
        preempt_callback, cancel_goals, emit, hp0, harr]
    | false =>
      cases hfound : env.scanFound s0.scanCnt with
      | false =>
        simp [execute_callback, doScanWait, applyPreemptArrival, checkPreempt,
          abortMarkerNotFound, emit, hp0, harr, hfound]
      | true =>
        simp [execute_callback, doScanWait, applyPreemptArrival, checkPreempt,
          emit, hp0, harr, hfound, hb, hm]
        exact exec_nav_normal env eY qY s0.max_tries _ (by simp) hmt (by simp)

/-- C2 amended witness: the amended theorem applied at the concrete
converging environment from a fresh request state. -/
theorem C2_amended_witness :
    (execute_callback envC5 eY0 qY0 initSt).2 = RunEnd.normal :=
  C2_amended_lookups_recoverable envC5 eY0 qY0 initSt (by simp [envC5])
    (by simp [envC5]) (by simp [initSt])

/-- One navigation cycle never reads the move-base status value: replacing
the `moveResult` stream of the environment leaves the cycle unchanged. -/
theorem navCycle_ignores_moveResult (env : Env) (r : ℕ → ℤ)
    (eY : Quat → ℝ) (qY : ℝ → Quat) (rec1 rec2 : St → St × RunEnd)
    (hrec : rec1 = rec2) (s : St) :
    navCycle { env with moveResult := r } eY qY rec1 s =
      navCycle env eY qY rec2 s := by
  subst hrec
  rfl

/-- `navigate_to_marker` never reads the move-base status value. -/
theorem nav_ignores_moveResult (env : Env) (r : ℕ → ℤ)
    (eY : Quat → ℝ) (qY : ℝ → Quat) :
    ∀ (fuel : ℕ) (s : St),
      navigate_to_marker { env with moveResult := r } eY qY fuel s =
        navigate_to_marker env eY qY fuel s := by
  intro fuel
  induction fuel with
  | zero =>
    intro s
    exact navCycle_ignores_moveResult env r eY qY _ _ rfl s
  | succ fuel ih =>
    intro s
    show navCycle { env with moveResult := r } eY qY
        (navigate_to_marker { env with moveResult := r } eY qY fuel) s =
      navCycle env eY qY (navigate_to_marker env eY qY fuel) s
    exact navCycle_ignores_moveResult env r eY qY _ _ (funext ih) s

/-- The convergence difference of the zero transform against itself is not
above the threshold. -/
theorem diff_t0_t0 : ¬ (0.075 : ℝ) < calculate_diff eY0 t0 t0 := by
  simp [calculate_diff, sub_self]
  norm_num

/-- Full trace of a request against `envC5`: one navigation cycle whose
drift evaluation converges immediately, with a failing move-base status. -/
theorem runC5_trace :
    (runRequest envC5 eY0 qY0).1.events =
      [Event.publishFeedback scanningMsg Alert.info, Event.waitScan,
       Event.checkedPreempt false, Event.checkedPreempt false,
       Event.tryIncr 1, Event.broadcastRel,
       Event.publishFeedback navigatingMsg Alert.info, Event.waitMove,
       Event.checkedPreempt false, Event.waitScan,
       Event.publishFeedback succeededMsg Alert.success, Event.setSucceeded] ∧
    (runRequest envC5 eY0 qY0).2 = RunEnd.normal := by
  constructor <;>
    simp [runRequest, execute_callback, navigate_to_marker, navCycle,
      doScanWait, doMoveWait, applyPreemptArrival, checkPreempt, emit,
      emitSucceeded, initSt, envC5, collectSamples, average_transforms,
      sumStep, fallthroughSucceed, diff_t0_t0]

/-- C5: the controller neither branches on nor stores the move-base status
value — replacing the whole `moveResult` stream leaves every run unchanged
(first conjunct) — and concretely, a run whose single move-base attempt
returns the failure status 4 (ABORTED) still terminates with
`set_succeeded` as soon as the drift check passes. -/
theorem C5_ignores_move_outcome :
    (∀ (env : Env) (r : ℕ → ℤ) (eY : Quat → ℝ) (qY : ℝ → Quat) (s0 : St),
      execute_callback { env with moveResult := r } eY qY s0 =
        execute_callback env eY qY s0) ∧
    envC5.moveResult 0 = 4 ∧
    firstTerminal (runRequest envC5 eY0 qY0).1.events =
      some Event.setSucceeded := by
  refine ⟨?_, rfl, ?_⟩
  · intro env r eY qY s0
    have h := nav_ignores_moveResult env r eY qY
    simp only [execute_callback, h]
    rfl
  · rw [runC5_trace.1]
    simp [firstTerminal, Event.isTerminal]

/-- C9 is false as stated: in the `envC5` run, the re-scan wait (the second
`waitScan` of the trace, index 9) is not followed by a cancellation check —
the controller proceeds straight to the drift evaluation and the success
report.  Cancellation is therefore not checked immediately after every
collaborator wait. -/
theorem C9_rescan_unchecked :
    ¬ checksAfterEveryWait (runRequest envC5 eY0 qY0).1.events := by
  intro h
  obtain ⟨b, hb⟩ := h 9 (Or.inl (by rw [runC5_trace.1]; rfl))
  rw [runC5_trace.1] at hb
  simp at hb

/-- C9 amended: when a cancellation request arrives while the controller
waits on the navigation collaborator, actionlib's preempt callback
(`cancel_goals`) issues cancel-all to both collaborators right then, the
request's first terminal event is `set_preempted` (the caller observes
`Cancelled`), and the callback returns normally after the next preempt
check observes the cancellation.  (The original claim's stronger placement
property — a check immediately after every collaborator wait — fails at the
re-scan wait, see the counterexample.) -/
theorem C9_amended_cancel (env : Env) (eY : Quat → ℝ) (qY : ℝ → Quat)
    (tb m0 : Transform) (rf : ℕ → Transform)
    (h1 : env.preemptAtScan 0 = false)
    (h2 : env.scanFound 0 = true)
    (h3 : env.lookupBaseLink = some tb)
    (h4 : env.lookupMapInit = some m0)
    (h5 : ∀ j, env.lookupRel j = some (rf j))
    (h6 : env.preemptAtMove 0 = true) :
    (runRequest env eY qY).2 = RunEnd.normal ∧
    firstTerminal (runRequest env eY qY).1.events = some Event.setPreempted ∧
    Event.cancelHead ∈ (runRequest env eY qY).1.events ∧
    Event.cancelMove ∈ (runRequest env eY qY).1.events := by
  have hcol := collect_ok env.lookupRel rf 10 0 [] (fun j _ _ => h5 j)
  have hr10 : List.range 10 = [0, 1, 2, 3, 4, 5, 6, 7, 8, 9] := rfl
  refine ⟨?_, ?_, ?_, ?_⟩ <;>
    simp [runRequest, execute_callback, navigate_to_marker, navCycle,
      doScanWait, doMoveWait, applyPreemptArrival, checkPreempt, emit,
      preempt_callback, cancel_goals, initSt, h1, h2, h3, h4, h6, hcol, hr10,
      average_transforms, sumStep, firstTerminal, Event.isTerminal]

/-- C9 amended witness: the amended theorem applied at the concrete
environment whose cancel request arrives during the move-base wait. -/
theorem C9_amended_cancel_witness :
    (runRequest envC9 eY0 qY0).2 = RunEnd.normal ∧
    firstTerminal (runRequest envC9 eY0 qY0).1.events = some Event.setPreempted ∧
    Event.cancelHead ∈ (runRequest envC9 eY0 qY0).1.events ∧
    Event.cancelMove ∈ (runRequest envC9 eY0 qY0).1.events :=
  C9_amended_cancel envC9 eY0 qY0 t0 t0 (fun _ => t0) rfl rfl rfl rfl
    (fun _ => rfl) rfl

/-- Each step of the never-converging marker sequence is at convergence
distance exactly 1 from the previous estimate. -/
theorem mSeq_diff (i : ℕ) : calculate_diff eY0 (mSeq i) (mSeq (i + 1)) = 1 := by
  simp only [calculate_diff, mSeq, eY0, q0]
  convert Real.sqrt_one using 2
  push_cast
  ring

/-- Full run of a request against `envNC`: three navigation cycles whose
drift never converges, ending in the retry-budget abort — followed, through
the missing `return` after the recursive call, by two spurious success
reports from the two outer evaluation frames. -/
theorem runNC_trace :
    (runRequest envNC eY0 qY0).1.events =
      [Event.publishFeedback scanningMsg Alert.info, Event.waitScan,
       Event.checkedPreempt false,
       Event.checkedPreempt false, Event.tryIncr 1, Event.broadcastRel,
       Event.publishFeedback navigatingMsg Alert.info, Event.waitMove,
       Event.checkedPreempt false, Event.waitScan,
       Event.checkedPreempt false, Event.tryIncr 2, Event.broadcastRel,
       Event.publishFeedback navigatingMsg Alert.info, Event.waitMove,
       Event.checkedPreempt false, Event.waitScan,
       Event.checkedPreempt false, Event.tryIncr 3, Event.broadcastRel,
       Event.publishFeedback navigatingMsg Alert.info, Event.waitMove,
       Event.checkedPreempt false,
       Event.publishFeedback navFailedMsg Alert.error, Event.setAborted,
       Event.publishFeedback succeededMsg Alert.success, Event.setSucceeded,
       Event.publishFeedback succeededMsg Alert.success, Event.setSucceeded] ∧
    (runRequest envNC eY0 qY0).1.num_tries = 0 ∧
    (runRequest envNC eY0 qY0).2 = RunEnd.normal := by
  have h01 : calculate_diff eY0 (mSeq 0) (mSeq 1) = 1 := mSeq_diff 0
  have h12 : calculate_diff eY0 (mSeq 1) (mSeq 2) = 1 := mSeq_diff 1
  have hd0 : (0.075 : ℝ) < calculate_diff eY0 (mSeq 0) (mSeq 1) := by
    rw [h01]; norm_num
  have hd1 : (0.075 : ℝ) < calculate_diff eY0 (mSeq 1) (mSeq 2) := by
    rw [h12]; norm_num
  refine ⟨?_, ?_, ?_⟩ <;>
    simp [runRequest, execute_callback, navigate_to_marker, navCycle,
      doScanWait, doMoveWait, applyPreemptArrival, checkPreempt, emit,
      abortNavFailed, emitSucceeded, fallthroughSucceed, initSt, envNC,
      collectSamples, average_transforms, sumStep, hd0, hd1]

/-- C1 is a code bug: when the drift evaluation exceeds the threshold the
controller does adopt the new pose and start another cycle, but because
source line 224 lacks a `return`, once the recursive cycle comes back the
same evaluation frame still runs lines 226-229: against `envNC` the request
first aborts (retry budget exhausted) and then the two outer evaluation
frames — both of which had measured a difference above 0.075 — publish
`Navigation succeeded!` and call `set_succeeded` anyway. -/
theorem C1_fallthrough_success :
    firstTerminal (runRequest envNC eY0 qY0).1.events = some Event.setAborted ∧
    List.count Event.setSucceeded (runRequest envNC eY0 qY0).1.events = 2 ∧
    Event.publishFeedback succeededMsg Alert.success ∈
      (runRequest envNC eY0 qY0).1.events := by
  refine ⟨?_, ?_, ?_⟩ <;> rw [runNC_trace.1]
  · simp [firstTerminal, Event.isTerminal]
  · simp [List.count_cons]
  · simp

/-- C4: a request whose marker estimate never converges (every drift
evaluation exceeds 0.075) terminates with `set_aborted` as its first
terminal event, preceded by the "navigation failed" feedback, after exactly
3 navigation attempts, and the attempt counter is 0 afterwards. -/
theorem C4_retry_budget (env : Env) (eY : Quat → ℝ) (qY : ℝ → Quat)
    (tb : Transform) (m : ℕ → Transform) (rf : ℕ → Transform)
    (hscan : ∀ i, env.scanFound i = true)
    (hps : ∀ i, env.preemptAtScan i = false)
    (hpm : ∀ i, env.preemptAtMove i = false)
    (hbase : env.lookupBaseLink = some tb)
    (hinit : env.lookupMapInit = some (m 0))
    (haru : ∀ i, env.lookupAruco i = some (m (i + 1)))
    (hrel : ∀ j, env.lookupRel j = some (rf j))
    (hdiff : ∀ i, (0.075 : ℝ) < calculate_diff eY (m i) (m (i + 1))) :
    (runRequest env eY qY).2 = RunEnd.normal ∧
    firstTerminal (runRequest env eY qY).1.events = some Event.setAborted ∧
    (runRequest env eY qY).1.events.countP isTryIncr = 3 ∧
    (runRequest env eY qY).1.num_tries = 0 ∧
    Event.publishFeedback navFailedMsg Alert.error ∈
      (runRequest env eY qY).1.events := by
  have hd0 : (0.075 : ℝ) < calculate_diff eY (m 0) (m 1) := hdiff 0
  have hd1 : (0.075 : ℝ) < calculate_diff eY (m 1) (m 2) := hdiff 1
  have ha0 : env.lookupAruco 0 = some (m 1) := haru 0
  have ha1 : env.lookupAruco 1 = some (m 2) := haru 1
  have hcol0 := collect_ok env.lookupRel rf 10 0 [] (fun j _ _ => hrel j)
  have hcol1 := collect_ok env.lookupRel rf 10 10 [] (fun j _ _ => hrel j)
  have hcol2 := collect_ok env.lookupRel rf 10 20 [] (fun j _ _ => hrel j)
  have hr10 : List.range 10 = [0, 1, 2, 3, 4, 5, 6, 7, 8, 9] := rfl
  refine ⟨?_, ?_, ?_, ?_, ?_⟩ <;>
    simp [runRequest, execute_callback, navigate_to_marker, navCycle,
      doScanWait, doMoveWait, applyPreemptArrival, checkPreempt, emit,
      abortNavFailed, emitSucceeded, fallthroughSucceed, initSt, hscan, hps,
      hpm, hbase, hinit, ha0, ha1, hd0, hd1, hcol0, hcol1, hcol2, hr10,
      average_transforms, sumStep, firstTerminal, Event.isTerminal, isTryIncr,
      List.countP_append]

/-- C4 witness: the theorem applied at the concrete never-converging
environment. -/
theorem C4_retry_budget_witness :
    (runRequest envNC eY0 qY0).2 = RunEnd.normal ∧
    firstTerminal (runRequest envNC eY0 qY0).1.events = some Event.setAborted ∧
    (runRequest envNC eY0 qY0).1.events.countP isTryIncr = 3 ∧
    (runRequest envNC eY0 qY0).1.num_tries = 0 ∧
    Event.publishFeedback navFailedMsg Alert.error ∈
      (runRequest envNC eY0 qY0).1.events :=
  C4_retry_budget envNC eY0 qY0 t0 mSeq (fun _ => t0)
    (fun _ => rfl) (fun _ => rfl) (fun _ => rfl) rfl rfl (fun _ => rfl)
    (fun _ => rfl) (fun i => by rw [mSeq_diff]; norm_num)

end StretchNav
